/-
Verification of the voice_mode audio subsystem (DSP chain and non-blocking
audio player) against its design specification.

The Lean definitions below are a shallow embedding of the Python sources
`src/voice_mode/dsp.py` and `src/voice_mode/audio_player.py`:
  * machine floats are modelled as real numbers (ℝ); float rounding is not
    modelled, but dtype bookkeeping (float32 vs other dtypes) is, since the
    spec speaks about the canonical float32 representation;
  * numpy arrays become an `NDArray` record carrying a dtype tag and a list
    of real samples;
  * per-sample Python loops become structural recursions / folds carrying
    the same mutable state the Python objects carry;
  * scipy's `butter` is an external collaborator: its output is modelled by
    the argument triple it is called with (`FilterSpec`); `sosfilt` is an
    external parameter function;
  * Python exceptions are modelled with `Except` where a claim is about
    exception flow;
  * the filesystem polled by the PTT interrupt loop becomes an explicit
    record of which signal files exist.
-/
import Mathlib

set_option maxRecDepth 10000

/-- Numpy dtype tags relevant to the player and chain: the canonical
32-bit float representation versus anything else the caller may pass. -/
inductive DType where
  | float32
  | float64
  | int16
deriving DecidableEq

/-- Model of a 1-D numpy sample buffer: a dtype tag plus the sample values
(real numbers; float rounding is not modelled). -/
structure NDArray where
  dtype : DType
  data : List ℝ

/-- Model of `ndarray.astype(np.float32)`: retags the buffer as float32
(value change from rounding is outside the model). -/
def astype32 (a : NDArray) : NDArray :=
  { dtype := DType.float32, data := a.data }

/-- From `dsp.py` `db_to_linear`: `10.0 ** (db / 20.0)`. -/
noncomputable def db_to_linear (db : ℝ) : ℝ :=
  (10 : ℝ) ^ (db / 20)

/-- From `dsp.py` `linear_to_db`: `-100.0` on nonpositive input, else
`20 * log10 linear`. -/
noncomputable def linear_to_db (linear : ℝ) : ℝ :=
  if linear ≤ 0 then -100 else 20 * Real.logb 10 linear

theorem db_to_linear_pos (db : ℝ) : 0 < db_to_linear db :=
  Real.rpow_pos_of_pos (by norm_num) _

theorem linear_to_db_db_to_linear (db : ℝ) :
    linear_to_db (db_to_linear db) = db := by
  have h := db_to_linear_pos db
  rw [linear_to_db, if_neg (not_le.mpr h), db_to_linear,
    Real.logb_rpow (by norm_num) (by norm_num)]
  ring

/-- From `dsp.py` `DSPConfig`: the dataclass of all per-stage parameters. -/
structure DSPConfig where
  enabled : Bool
  sample_rate : ℕ
  pre_gain_db : ℝ
  eq_low_gain_db : ℝ
  eq_mid_gain_db : ℝ
  eq_high_gain_db : ℝ
  eq_low_freq : ℝ
  eq_high_freq : ℝ
  leveler_enabled : Bool
  leveler_gain_db : ℝ
  leveler_peak_reduction : ℝ
  compressor_enabled : Bool
  compressor_threshold_db : ℝ
  compressor_ratio : ℝ
  compressor_attack_ms : ℝ
  compressor_release_ms : ℝ
  compressor_makeup_db : ℝ
  limiter_enabled : Bool
  limiter_ceiling_db : ℝ
  limiter_release_ms : ℝ
  output_gain_db : ℝ

/-- Default field values of the `DSPConfig` dataclass. -/
noncomputable def DSPConfig.default : DSPConfig :=
  { enabled := true
    sample_rate := 24000
    pre_gain_db := 0
    eq_low_gain_db := 0
    eq_mid_gain_db := 0
    eq_high_gain_db := 0
    eq_low_freq := 200
    eq_high_freq := 4000
    leveler_enabled := true
    leveler_gain_db := 6
    leveler_peak_reduction := 3
    compressor_enabled := true
    compressor_threshold_db := -18
    compressor_ratio := 4
    compressor_attack_ms := 10
    compressor_release_ms := 100
    compressor_makeup_db := 0
    limiter_enabled := true
    limiter_ceiling_db := -1
    limiter_release_ms := 50
    output_gain_db := 0 }

/-- Filter type argument of scipy's `butter` as used by `SimpleEQ`. -/
inductive BType where
  | low
  | high
deriving DecidableEq

/-- Output of `butter(order, wn, btype, output='sos')`, modelled by the
arguments it is called with: scipy is an external collaborator, so a
coefficient set is identified with the parameters that determine it. -/
structure FilterSpec where
  order : ℕ
  wn : ℝ
  btype : BType

/-- From `dsp.py` `SimpleEQ`: stored sample rate, the two crossover
frequencies, and the four coefficient sets built by `_build_filters`
(`none` when scipy is unavailable). -/
structure SimpleEQ where
  sample_rate : ℕ
  low_freq : ℝ
  high_freq : ℝ
  sos_low : Option FilterSpec
  sos_mid_low : Option FilterSpec
  sos_mid_high : Option FilterSpec
  sos_high : Option FilterSpec

/-- From `dsp.py` `SimpleEQ.__init__` followed by `_build_filters`:
coefficients are derived from the sample rate and the two crossover
frequencies (`nyquist = sample_rate / 2`); all `none` without scipy. -/
noncomputable def SimpleEQ.init (scipy : Bool) (sample_rate : ℕ)
    (low_freq high_freq : ℝ) : SimpleEQ :=
  if scipy then
    let nyquist : ℝ := (sample_rate : ℝ) / 2
    { sample_rate := sample_rate
      low_freq := low_freq
      high_freq := high_freq
      sos_low := some ⟨2, low_freq / nyquist, BType.low⟩
      sos_mid_low := some ⟨2, low_freq / nyquist, BType.high⟩
      sos_mid_high := some ⟨2, high_freq / nyquist, BType.low⟩
      sos_high := some ⟨2, high_freq / nyquist, BType.high⟩ }
  else
    { sample_rate := sample_rate
      low_freq := low_freq
      high_freq := high_freq
      sos_low := none
      sos_mid_low := none
      sos_mid_high := none
      sos_high := none }

/-- From `dsp.py` `SimpleEQ.process`: split into three bands with the
external `sosfilt`, scale each band by its linear gain, and sum.  Without
scipy the input is returned unchanged. -/
noncomputable def SimpleEQ.process (scipy : Bool)
    (sosfilt : Option FilterSpec → List ℝ → List ℝ) (eq : SimpleEQ)
    (low_gain_db mid_gain_db high_gain_db : ℝ) (samples : List ℝ) :
    List ℝ :=
  if scipy then
    let low_gain := db_to_linear low_gain_db
    let mid_gain := db_to_linear mid_gain_db
    let high_gain := db_to_linear high_gain_db
    let low := (sosfilt eq.sos_low samples).map (fun x => x * low_gain)
    let mid := ((sosfilt eq.sos_mid_high (sosfilt eq.sos_mid_low samples)).map
      (fun x => x * mid_gain))
    let high := (sosfilt eq.sos_high samples).map (fun x => x * high_gain)
    List.zipWith (· + ·) (List.zipWith (· + ·) low mid) high
  else samples

/-- Threading of per-sample mutable stage state through a Python
`for i in range(len(samples))` loop: fold the step function over the
buffer, collecting the outputs. -/
def procFold {σ β : Type} (f : σ → ℝ → σ × β) : σ → List ℝ → σ × List β
  | st, [] => (st, [])
  | st, s :: rest =>
    let r := f st s
    let t := procFold f r.1 rest
    (t.1, r.2 :: t.2)

theorem procFold_length {σ β : Type} (f : σ → ℝ → σ × β) (st : σ)
    (l : List ℝ) : (procFold f st l).2.length = l.length := by
  induction l generalizing st with
  | nil => rfl
  | cons s rest ih => simp [procFold, ih]

/-- From `dsp.py` `LA2ALeveler.__init__`: sample rate, current linear gain
reduction, simulated optical cell state, and the two fixed time-constant
coefficients computed at construction. -/
structure LA2ALeveler where
  sample_rate : ℕ
  gain_reduction : ℝ
  optical_cell : ℝ
  attack_coef : ℝ
  release_coef : ℝ

/-- `LA2ALeveler.__init__`: gain reduction starts at 1, the optical cell at
0; `attack_coef = exp(-1/(0.010*sr))`, `release_coef = exp(-1/(0.060*sr))`
(the latter is stored but never read by `process`). -/
noncomputable def LA2ALeveler.init (sample_rate : ℕ) : LA2ALeveler :=
  { sample_rate := sample_rate
    gain_reduction := 1
    optical_cell := 0
    attack_coef := Real.exp (-1 / ((0.010 : ℝ) * sample_rate))
    release_coef := Real.exp (-1 / ((0.060 : ℝ) * sample_rate)) }

/-- Loop body of `LA2ALeveler.process` (one sample): charge or discharge
the optical cell (program-dependent release time `0.040 + 0.5*cell`),
derive the gain reduction from the updated cell, output
`sample * gain_reduction * output_gain`. -/
noncomputable def levelerStep (target_reduction output_gain : ℝ)
    (lv : LA2ALeveler) (s : ℝ) : LA2ALeveler × ℝ :=
  let a := |s|
  let cell :=
    if lv.optical_cell < a then
      a + lv.attack_coef * (lv.optical_cell - a)
    else
      let release_time := (0.040 : ℝ) + (0.5 : ℝ) * lv.optical_cell
      let rc := Real.exp (-1 / (release_time * lv.sample_rate))
      a + rc * (lv.optical_cell - a)
  let gr :=
    if (0.1 : ℝ) < cell then
      1 - min 1 cell * (1 - target_reduction)
    else
      1 + (0.9 : ℝ) * (lv.gain_reduction - 1)
  ({ lv with optical_cell := cell, gain_reduction := gr },
    s * gr * output_gain)

/-- From `dsp.py` `LA2ALeveler.process`: pure gain stage when
`peak_reduction_db <= 0`, otherwise the per-sample optical-cell loop with
`target_reduction = db_to_linear (-peak_reduction_db)`. -/
noncomputable def LA2ALeveler.process (lv : LA2ALeveler)
    (peak_reduction_db output_gain_db : ℝ) (samples : List ℝ) :
    LA2ALeveler × List ℝ :=
  if peak_reduction_db ≤ 0 then
    (lv, samples.map (fun x => x * db_to_linear output_gain_db))
  else
    procFold
      (levelerStep (db_to_linear (-peak_reduction_db))
        (db_to_linear output_gain_db))
      lv samples

/-- From `dsp.py` `Compressor.__init__`: sample rate, envelope-follower
state (starts at 0) and current linear gain reduction (starts at 1). -/
structure Compressor where
  sample_rate : ℕ
  envelope : ℝ
  gain_reduction : ℝ

def Compressor.init (sample_rate : ℕ) : Compressor :=
  { sample_rate := sample_rate, envelope := 0, gain_reduction := 1 }

/-- Gain-reduction computation inside the `Compressor.process` loop: over
threshold the reduction is `db_to_linear (-(over_db * (1 - 1/ratio)))`
with `over_db = linear_to_db (envelope / threshold)`; at or below
threshold the reduction is unity. -/
noncomputable def compGain (threshold ratio envelope : ℝ) : ℝ :=
  if threshold < envelope then
    db_to_linear (-(linear_to_db (envelope / threshold) * (1 - 1 / ratio)))
  else 1

/-- Loop body of `Compressor.process` (one sample): envelope follower with
attack/release coefficients, then the gain-reduction rule, then
`sample * gain_reduction * makeup`. -/
noncomputable def compStep (threshold ratio attack_coef release_coef
    makeup : ℝ) (c : Compressor) (s : ℝ) : Compressor × ℝ :=
  let a := |s|
  let env :=
    if c.envelope < a then a + attack_coef * (c.envelope - a)
    else a + release_coef * (c.envelope - a)
  let gr := compGain threshold ratio env
  ({ c with envelope := env, gain_reduction := gr }, s * gr * makeup)

/-- From `dsp.py` `Compressor.process`: convert threshold and makeup from
dB, compute `exp(-1/(time_s * sr))` coefficients, and run the per-sample
loop. -/
noncomputable def Compressor.process (c : Compressor)
    (threshold_db ratio attack_ms release_ms makeup_db : ℝ)
    (samples : List ℝ) : Compressor × List ℝ :=
  let threshold := db_to_linear threshold_db
  let makeup := db_to_linear makeup_db
  let attack_coef := Real.exp (-1 / (attack_ms / 1000 * c.sample_rate))
  let release_coef := Real.exp (-1 / (release_ms / 1000 * c.sample_rate))
  procFold (compStep threshold ratio attack_coef release_coef makeup)
    c samples

/-- From `dsp.py` `Limiter.__init__`: sample rate, lookahead length in
samples (`int(5ms * sr)`), current applied gain and target gain (both
start at 1). -/
structure Limiter where
  sample_rate : ℕ
  lookahead_samples : ℕ
  gain : ℝ
  gain_target : ℝ

def Limiter.init (sample_rate : ℕ) : Limiter :=
  { sample_rate := sample_rate
    lookahead_samples := 5 * sample_rate / 1000
    gain := 1
    gain_target := 1 }

/-- `np.max(np.abs(window))` over a window of samples (the windows the
limiter inspects are nonempty, for which the 0 base of the fold is
absorbed). -/
def maxAbs (l : List ℝ) : ℝ :=
  l.foldr (fun x m => max |x| m) 0

/-- Loop of `Limiter.process`: at each sample, `peak` is the maximum
absolute value of `buffer[i : i + lookahead + 1]` (here `buf` is the
buffer suffix starting at the current index); if `peak * gain` would
exceed the ceiling, the target gain drops to `ceiling / peak`
immediately; the applied gain attacks instantly downward and releases
toward the target with `release_coef` upward. -/
noncomputable def limiterGo (lookahead : ℕ) (ceiling release_coef : ℝ) :
    (ℝ × ℝ) → List ℝ → List ℝ → (ℝ × ℝ) × List ℝ
  | st, [], _ => (st, [])
  | st, s :: rest, buf =>
    let peak := maxAbs (buf.take (lookahead + 1))
    let tgt := if ceiling < peak * st.1 then ceiling / peak else st.2
    let g := if tgt < st.1 then tgt else tgt + release_coef * (st.1 - tgt)
    let t := limiterGo lookahead ceiling release_coef (g, tgt) rest
      (buf.drop 1)
    (t.1, s * g :: t.2)

/-- From `dsp.py` `Limiter.process`: convert the ceiling from dB, build
the zero-padded lookahead buffer, and run the per-sample loop. -/
noncomputable def Limiter.process (lim : Limiter)
    (ceiling_db release_ms : ℝ) (samples : List ℝ) : Limiter × List ℝ :=
  let ceiling := db_to_linear ceiling_db
  let release_coef := Real.exp (-1 / (release_ms / 1000 * lim.sample_rate))
  let buf := List.replicate lim.lookahead_samples (0 : ℝ) ++ samples
  let t := limiterGo lim.lookahead_samples ceiling release_coef
    (lim.gain, lim.gain_target) samples buf
  ({ lim with gain := t.1.1, gain_target := t.1.2 }, t.2)

/-- From `dsp.py` `DSPChain`: the active config plus one instance of each
stage. -/
structure DSPChain where
  config : DSPConfig
  eq : SimpleEQ
  leveler : LA2ALeveler
  compressor : Compressor
  limiter : Limiter

/-- `DSPChain.__init__` / `_init_processors`: build every stage from the
config's sample rate (and, for the EQ, its crossover frequencies). -/
noncomputable def DSPChain.init (scipy : Bool) (config : DSPConfig) :
    DSPChain :=
  { config := config
    eq := SimpleEQ.init scipy config.sample_rate config.eq_low_freq
      config.eq_high_freq
    leveler := LA2ALeveler.init config.sample_rate
    compressor := Compressor.init config.sample_rate
    limiter := Limiter.init config.sample_rate }

/-- From `dsp.py` `DSPChain.update_config`: store the new config; rerun
`_init_processors` (rebuilding every stage from the new config) only when
the sample rate changed. -/
noncomputable def DSPChain.update_config (scipy : Bool) (st : DSPChain)
    (config : DSPConfig) : DSPChain :=
  if config.sample_rate ≠ st.config.sample_rate then DSPChain.init scipy config
  else { st with config := config }

/-- EQ step of `DSPChain.process`: the stage runs only when scipy is
available and at least one EQ gain is nonzero; otherwise the buffer passes
through untouched (there is no separate EQ enable flag). -/
noncomputable def DSPChain.eqStage (scipy : Bool)
    (sosfilt : Option FilterSpec → List ℝ → List ℝ) (cfg : DSPConfig)
    (eq : SimpleEQ) (d : List ℝ) : List ℝ :=
  if scipy = true ∧ (cfg.eq_low_gain_db ≠ 0 ∨ cfg.eq_mid_gain_db ≠ 0 ∨
      cfg.eq_high_gain_db ≠ 0) then
    SimpleEQ.process scipy sosfilt eq cfg.eq_low_gain_db cfg.eq_mid_gain_db
      cfg.eq_high_gain_db d
  else d

/-- Pre-gain step of `DSPChain.process`: applied only when
`pre_gain_db != 0`. -/
noncomputable def DSPChain.preGainStage (cfg : DSPConfig) (d : List ℝ) :
    List ℝ :=
  if cfg.pre_gain_db ≠ 0 then
    d.map (fun x => x * db_to_linear cfg.pre_gain_db)
  else d

/-- Leveler step of `DSPChain.process`: runs only when
`leveler_enabled`. -/
noncomputable def DSPChain.levelerStage (cfg : DSPConfig)
    (lv : LA2ALeveler) (d : List ℝ) : LA2ALeveler × List ℝ :=
  if cfg.leveler_enabled then
    LA2ALeveler.process lv cfg.leveler_peak_reduction cfg.leveler_gain_db d
  else (lv, d)

/-- Compressor step of `DSPChain.process`: runs only when
`compressor_enabled`. -/
noncomputable def DSPChain.compressorStage (cfg : DSPConfig)
    (c : Compressor) (d : List ℝ) : Compressor × List ℝ :=
  if cfg.compressor_enabled then
    Compressor.process c cfg.compressor_threshold_db cfg.compressor_ratio
      cfg.compressor_attack_ms cfg.compressor_release_ms
      cfg.compressor_makeup_db d
  else (c, d)

/-- Limiter step of `DSPChain.process`: runs only when `limiter_enabled`
(always last in processing). -/
noncomputable def DSPChain.limiterStage (cfg : DSPConfig) (lim : Limiter)
    (d : List ℝ) : Limiter × List ℝ :=
  if cfg.limiter_enabled then
    Limiter.process lim cfg.limiter_ceiling_db cfg.limiter_release_ms d
  else (lim, d)

/-- Final output attenuation of `DSPChain.process`: applied only when
`output_gain_db < 0`. -/
noncomputable def DSPChain.outputGainStage (cfg : DSPConfig)
    (d : List ℝ) : List ℝ :=
  if cfg.output_gain_db < 0 then
    d.map (fun x => x * db_to_linear cfg.output_gain_db)
  else d

/-- From `dsp.py` `DSPChain.process`: identity when the chain is disabled
(no float32 cast on that path); otherwise cast to float32, then
pre-gain → EQ → leveler → compressor → limiter → output attenuation, each
optional stage guarded by its enable flag, and a final
`astype(np.float32)`.  RMS/peak logging has no effect on the data and is
omitted. -/
noncomputable def DSPChain.process (scipy : Bool)
    (sosfilt : Option FilterSpec → List ℝ → List ℝ) (st : DSPChain)
    (arr : NDArray) : DSPChain × NDArray :=
  if st.config.enabled then
    let arr := if arr.dtype ≠ DType.float32 then astype32 arr else arr
    let d := DSPChain.preGainStage st.config arr.data
    let d := DSPChain.eqStage scipy sosfilt st.config st.eq d
    let lev := DSPChain.levelerStage st.config st.leveler d
    let comp := DSPChain.compressorStage st.config st.compressor lev.2
    let lim := DSPChain.limiterStage st.config st.limiter comp.2
    let d := DSPChain.outputGainStage st.config lim.2
    ({ st with leveler := lev.1, compressor := comp.1, limiter := lim.1 },
      { dtype := DType.float32, data := d })
  else (st, arr)

/-- Possibly-raising behaviours of the four stage `process` methods, used
to model Python exception flow through `DSPChain.process`: a stage either
returns its result or raises (`Except.error`). -/
structure StageFns where
  eqF : SimpleEQ → ℝ → ℝ → ℝ → List ℝ → Except Unit (List ℝ)
  levF : LA2ALeveler → ℝ → ℝ → List ℝ → Except Unit (LA2ALeveler × List ℝ)
  compF : Compressor → ℝ → ℝ → ℝ → ℝ → ℝ → List ℝ →
    Except Unit (Compressor × List ℝ)
  limF : Limiter → ℝ → ℝ → List ℝ → Except Unit (Limiter × List ℝ)

/-- Exception-flow model of `DSPChain.process`: the same stage sequencing
as `DSPChain.process`, with each stage's possibly-raising behaviour passed
in.  The method body contains no try/except, so a raising stage
short-circuits the whole call (the error propagates to the caller). -/
noncomputable def DSPChain.processE (scipy : Bool) (fns : StageFns)
    (st : DSPChain) (arr : NDArray) :
    Except Unit (DSPChain × NDArray) :=
  if st.config.enabled then do
    let arr := if arr.dtype ≠ DType.float32 then astype32 arr else arr
    let d := arr.data
    let d :=
      if st.config.pre_gain_db ≠ 0 then
        d.map (fun x => x * db_to_linear st.config.pre_gain_db)
      else d
    let d ←
      if scipy = true ∧ (st.config.eq_low_gain_db ≠ 0 ∨
          st.config.eq_mid_gain_db ≠ 0 ∨ st.config.eq_high_gain_db ≠ 0) then
        fns.eqF st.eq st.config.eq_low_gain_db st.config.eq_mid_gain_db
          st.config.eq_high_gain_db d
      else Except.ok d
    let lev ←
      if st.config.leveler_enabled then
        fns.levF st.leveler st.config.leveler_peak_reduction
          st.config.leveler_gain_db d
      else Except.ok (st.leveler, d)
    let comp ←
      if st.config.compressor_enabled then
        fns.compF st.compressor st.config.compressor_threshold_db
          st.config.compressor_ratio st.config.compressor_attack_ms
          st.config.compressor_release_ms st.config.compressor_makeup_db
          lev.2
      else Except.ok (st.compressor, lev.2)
    let lim ←
      if st.config.limiter_enabled then
        fns.limF st.limiter st.config.limiter_ceiling_db
          st.config.limiter_release_ms comp.2
      else Except.ok (st.limiter, comp.2)
    let d :=
      if st.config.output_gain_db < 0 then
        lim.2.map (fun x => x * db_to_linear st.config.output_gain_db)
      else lim.2
    Except.ok
      ({ st with leveler := lev.1, compressor := comp.1, limiter := lim.1 },
        { dtype := DType.float32, data := d })
  else Except.ok (st, arr)

/-- The non-raising instantiation of the stage behaviours: every stage
returns its `process` result. -/
noncomputable def okStageFns (scipy : Bool)
    (sosfilt : Option FilterSpec → List ℝ → List ℝ) : StageFns :=
  { eqF := fun eq lg mg hg d =>
      Except.ok (SimpleEQ.process scipy sosfilt eq lg mg hg d)
    levF := fun lv pr og d => Except.ok (LA2ALeveler.process lv pr og d)
    compF := fun c t r a rl m d =>
      Except.ok (Compressor.process c t r a rl m d)
    limF := fun lim c r d => Except.ok (Limiter.process lim c r d) }

/-- From `dsp.py` `process_audio` together with `get_default_chain`: with
an explicit config, a fresh `DSPChain` is constructed and used (its state
is discarded and the module-level default chain is untouched); with no
config, the lazily created default chain is used and its mutated stage
state persists.  `g` is the module-level `_default_chain` and `loadCfg`
the config `load_config_from_voicemode` would produce. -/
noncomputable def process_audio (scipy : Bool)
    (sosfilt : Option FilterSpec → List ℝ → List ℝ) (samples : NDArray)
    (config : Option DSPConfig) (g : Option DSPChain)
    (loadCfg : DSPConfig) : Option DSPChain × NDArray :=
  match config with
  | some c =>
    (g, (DSPChain.process scipy sosfilt (DSPChain.init scipy c) samples).2)
  | none =>
    let chain := g.getD (DSPChain.init scipy loadCfg)
    let t := DSPChain.process scipy sosfilt chain samples
    (some t.1, t.2)

/-- Items of the player's audio queue: an audio chunk or the `None`
end-of-stream marker. -/
inductive QItem (α : Type) where
  | chunk (data : List α)
  | endMarker
deriving DecidableEq

/-- Stream lifecycle operations `play` can issue against the sounddevice
output stream (identified by a fresh id per constructed stream). -/
inductive StreamAction where
  | openStream (id : ℕ)
  | startStream (id : ℕ)
  | stopStream (id : ℕ)
  | closeStream (id : ℕ)
deriving DecidableEq

/-- From `audio_player.py` `NonBlockingAudioPlayer`: chunk size, DSP flag,
the chunk queue, the handle of the open output stream (a stream id, `none`
when no stream object is held), the completion event and the stored
playback error. -/
structure PlayerState where
  buffer_size : ℕ
  dsp_enabled : Bool
  audio_queue : Option (List (QItem ℝ))
  stream : Option ℕ
  playback_complete : Bool
  playback_error : Option Unit

/-- The chunking loop of `play`:
`for i in range(0, len(samples), buffer_size)` taking `samples[i:i+S]`,
written as fuel-bounded recursion (the fuel `len samples` suffices for any
step `S ≥ 1`; Python raises on step 0, which the claims exclude). -/
def chunkGo {α : Type} (S : ℕ) : ℕ → List α → List (List α)
  | 0, _ => []
  | _ + 1, [] => []
  | fuel + 1, a :: l => ((a :: l).take S) :: chunkGo S fuel ((a :: l).drop S)

/-- Splitting a buffer into consecutive chunks of size `S` (last chunk
possibly shorter), as `play` does before enqueueing. -/
def chunkSplit {α : Type} (S : ℕ) (l : List α) : List (List α) :=
  chunkGo S l.length l

/-- DSP section of `play` (`audio_player.py` lines 126-141): cast to
float32, then, when DSP is enabled, run the chain inside try/except —
on any exception the raw (cast) buffer is used.  `chainF` is the
possibly-raising behaviour of `self.dsp_chain.process` (including the
lazy `get_default_chain` initialisation). -/
def playDSPBuffer (dsp_enabled : Bool)
    (chainF : NDArray → Except Unit NDArray) (samples : NDArray) :
    NDArray :=
  let s32 := astype32 samples
  if dsp_enabled then
    match chainF s32 with
    | Except.ok y => y
    | Except.error _ => s32
  else s32

/-- From `audio_player.py` `NonBlockingAudioPlayer.play` (success path of
the stream open): clear completion/error state, cast and DSP-process the
samples, build a fresh queue of consecutive chunks followed by the `None`
end marker, store the new stream handle and issue open+start.  The
returned action list records every stream lifecycle call the method
makes. -/
def NonBlockingAudioPlayer.play (st : PlayerState)
    (chainF : NDArray → Except Unit NDArray) (samples : NDArray)
    (newId : ℕ) : PlayerState × List StreamAction :=
  let processed := playDSPBuffer st.dsp_enabled chainF samples
  let q := (chunkSplit st.buffer_size processed.data).map QItem.chunk ++
    [QItem.endMarker]
  ({ st with
      playback_complete := false
      playback_error := none
      audio_queue := some q
      stream := some newId },
    [StreamAction.openStream newId, StreamAction.startStream newId])

/-- Which PTT signal files currently exist on disk
(`PTT_TOGGLE_FILE`, `PTT_START_FILE`). -/
structure PTTFiles where
  toggle : Bool
  start : Bool
deriving DecidableEq

/-- Whether `elapsed >= timeout` holds at poll tick `t` (timeouts measured
in whole poll intervals; `none` = wait forever). -/
def timeoutHit (timeoutTicks : Option ℕ) (t : ℕ) : Bool :=
  match timeoutTicks with
  | none => false
  | some T => T ≤ t

/-- Poll loop of `wait_with_ptt_interrupt`, one step per poll tick:
check natural completion, then timeout, then the toggle file (which takes
precedence and is deleted on detection), then the start file (left on
disk); on either signal `stop()` is called and the loop exits.
`completeAt t` is whether the callback thread has set the completion event
by tick `t`.  Returns `(files, interrupted, stopCalled, exitTick)`, or
`none` if the fuel runs out before the loop exits. -/
def wwpiGo (completeAt : ℕ → Bool) (timeoutTicks : Option ℕ) :
    ℕ → ℕ → PTTFiles → Option (PTTFiles × Bool × Bool × ℕ)
  | 0, _, _ => none
  | fuel + 1, t, fs =>
    if completeAt t then some (fs, false, false, t)
    else if timeoutHit timeoutTicks t then some (fs, false, false, t)
    else if fs.toggle then some ({ fs with toggle := false }, true, true, t)
    else if fs.start then some (fs, true, true, t)
    else wwpiGo completeAt timeoutTicks fuel (t + 1) fs

/-- From `audio_player.py` `NonBlockingAudioPlayer.wait_with_ptt_interrupt`:
run the poll loop, then (stream teardown aside) report
`(files, stopCalled, playback_completed, ptt_interrupted)`, where the
source function returns the final pair and
`playback_completed = playback_complete.is_set() and not ptt_interrupted`
(the completion event is set either by the callback or by `stop()`). -/
def wait_with_ptt_interrupt (completeAt : ℕ → Bool)
    (timeoutTicks : Option ℕ) (fuel : ℕ) (fs : PTTFiles) :
    Option (PTTFiles × Bool × Bool × Bool) :=
  match wwpiGo completeAt timeoutTicks fuel 0 fs with
  | none => none
  | some (fs', interrupted, stopCalled, t) =>
    let completeSet := completeAt t || stopCalled
    some (fs', stopCalled, completeSet && !interrupted, interrupted)

/-- Claim C6: during `wait_with_ptt_interrupt`, when both the toggle and
the start signal files are present on the same poll tick (playback not yet
complete, no timeout), the toggle is consumed (deleted) while the start
file is left untouched, playback is force-stopped, and the call returns
`(playback_completed = false, ptt_interrupted = true)`. -/
theorem c6_toggle_priority_over_start (completeAt : ℕ → Bool)
    (timeoutTicks : Option ℕ) (fuel : ℕ) (fs : PTTFiles)
    (hc : completeAt 0 = false) (ht : timeoutHit timeoutTicks 0 = false)
    (htog : fs.toggle = true) (hstart : fs.start = true) :
    wait_with_ptt_interrupt completeAt timeoutTicks (fuel + 1) fs =
      some ({ fs with toggle := false }, true, false, true) ∧
    ({ fs with toggle := false } : PTTFiles).start = fs.start := by
  refine ⟨?_, rfl⟩
  simp [wait_with_ptt_interrupt, wwpiGo, hc, ht, htog]

/-- Witness for C6 at a concrete tick environment: completion never set,
no timeout, both files present. -/
theorem c6_toggle_priority_over_start_witness :
    (fun _ : ℕ => false) 0 = false ∧
    timeoutHit none 0 = false ∧
    (⟨true, true⟩ : PTTFiles).toggle = true ∧
    (⟨true, true⟩ : PTTFiles).start = true ∧
    wait_with_ptt_interrupt (fun _ => false) none 1 ⟨true, true⟩ =
      some (⟨false, true⟩, true, false, true) :=
  ⟨rfl, rfl, rfl, rfl,
    (c6_toggle_priority_over_start (fun _ => false) none 0 ⟨true, true⟩
      rfl rfl rfl rfl).1⟩

/-- Claim C10: `process_audio` with an explicit (non-`None`) config builds
a fresh `DSPChain` with zero-initialised stage state on every call: the
output does not depend on the module-level default chain (or on the config
its lazy initialisation would load), the default chain is left untouched,
and the freshly built stages start from their zero states. -/
theorem c10_process_audio_explicit_config_is_fresh (scipy : Bool)
    (sosfilt : Option FilterSpec → List ℝ → List ℝ) (samples : NDArray)
    (c : DSPConfig) (g g' : Option DSPChain) (loadCfg loadCfg' : DSPConfig) :
    (process_audio scipy sosfilt samples (some c) g loadCfg).2 =
      (process_audio scipy sosfilt samples (some c) g' loadCfg').2 ∧
    (process_audio scipy sosfilt samples (some c) g loadCfg).1 = g ∧
    (process_audio scipy sosfilt samples (some c) g loadCfg).2 =
      (DSPChain.process scipy sosfilt (DSPChain.init scipy c) samples).2 ∧
    (DSPChain.init scipy c).leveler.gain_reduction = 1 ∧
    (DSPChain.init scipy c).leveler.optical_cell = 0 ∧
    (DSPChain.init scipy c).compressor.envelope = 0 ∧
    (DSPChain.init scipy c).compressor.gain_reduction = 1 ∧
    (DSPChain.init scipy c).limiter.gain = 1 ∧
    (DSPChain.init scipy c).limiter.gain_target = 1 :=
  ⟨rfl, rfl, rfl, rfl, rfl, rfl, rfl, rfl, rfl⟩

/-- Counterexample to claim C3 as stated: with the chain disabled,
`DSPChain.process` on a float64 buffer returns a buffer whose dtype is
not float32 — the disabled path performs no canonical float cast. -/
theorem c3_counterexample_disabled_keeps_dtype :
    ((DSPChain.process true (fun _ l => l)
      (DSPChain.init true { DSPConfig.default with enabled := false })
      { dtype := DType.float64, data := [] }).2).dtype ≠
      DType.float32 := by
  simp [DSPChain.process, DSPChain.init, DSPConfig.default]

/-- Claim C3, amended: with `enabled = false`, `DSPChain.process` returns
the input buffer unchanged — same data and same dtype, with no float32
cast; the float32 dtype guarantee holds only on the enabled path. -/
theorem c3_disabled_chain_is_identity :
    (∀ (scipy : Bool) (sosfilt : Option FilterSpec → List ℝ → List ℝ)
      (st : DSPChain) (arr : NDArray), st.config.enabled = false →
      DSPChain.process scipy sosfilt st arr = (st, arr)) ∧
    (∀ (scipy : Bool) (sosfilt : Option FilterSpec → List ℝ → List ℝ)
      (st : DSPChain) (arr : NDArray), st.config.enabled = true →
      ((DSPChain.process scipy sosfilt st arr).2).dtype = DType.float32) := by
  constructor
  · intro scipy sosfilt st arr h
    simp [DSPChain.process, h]
  · intro scipy sosfilt st arr h
    simp [DSPChain.process, h]

/-- Witness for C3 (amended) at concrete disabled and enabled chains. -/
theorem c3_disabled_chain_is_identity_witness :
    (DSPChain.init true { DSPConfig.default with enabled := false }).config.enabled
      = false ∧
    DSPChain.process true (fun _ l => l)
      (DSPChain.init true { DSPConfig.default with enabled := false })
      { dtype := DType.float64, data := [] } =
      (DSPChain.init true { DSPConfig.default with enabled := false },
        { dtype := DType.float64, data := [] }) ∧
    (DSPChain.init true DSPConfig.default).config.enabled = true ∧
    ((DSPChain.process true (fun _ l => l)
      (DSPChain.init true DSPConfig.default)
      { dtype := DType.float64, data := [] }).2).dtype = DType.float32 :=
  ⟨rfl,
    c3_disabled_chain_is_identity.1 true (fun _ l => l) _ _ rfl,
    rfl,
    c3_disabled_chain_is_identity.2 true (fun _ l => l) _ _ rfl⟩

/-- Counterexample to claim C2 as stated: from a player state whose
previous stream (id 0) is still active, `play` issues only open and start
actions for the new stream — it never stops (or closes) the previous
stream before opening the new one. -/
theorem c2_counterexample_play_does_not_stop_previous :
    (⟨2048, false, none, some 0, false, none⟩ : PlayerState).stream = some 0 ∧
    (NonBlockingAudioPlayer.play ⟨2048, false, none, some 0, false, none⟩
      (fun x => Except.ok x) ⟨DType.float32, []⟩ 1).2 =
      [StreamAction.openStream 1, StreamAction.startStream 1] ∧
    StreamAction.stopStream 0 ∉
      (NonBlockingAudioPlayer.play ⟨2048, false, none, some 0, false, none⟩
        (fun x => Except.ok x) ⟨DType.float32, []⟩ 1).2 ∧
    StreamAction.closeStream 0 ∉
      (NonBlockingAudioPlayer.play ⟨2048, false, none, some 0, false, none⟩
        (fun x => Except.ok x) ⟨DType.float32, []⟩ 1).2 := by
  refine ⟨rfl, rfl, ?_, ?_⟩ <;> simp [NonBlockingAudioPlayer.play]

/-- Claim C2, amended: `play` does not enforce stream exclusivity — for
every prior player state (active previous stream or not) it issues no
stop or close action at all; it simply overwrites the stream handle with
the new stream's id (the previous stream is only torn down by an explicit
`wait` or `stop` call). -/
theorem c2_play_overwrites_stream_without_stop (st : PlayerState)
    (chainF : NDArray → Except Unit NDArray) (samples : NDArray)
    (newId : ℕ) :
    (NonBlockingAudioPlayer.play st chainF samples newId).1.stream =
      some newId ∧
    ∀ a ∈ (NonBlockingAudioPlayer.play st chainF samples newId).2, ∀ j,
      a ≠ StreamAction.stopStream j ∧ a ≠ StreamAction.closeStream j := by
  refine ⟨rfl, ?_⟩
  intro a ha j
  simp only [NonBlockingAudioPlayer.play, List.mem_cons,
    List.not_mem_nil, or_false] at ha
  rcases ha with h | h <;> subst h <;>
    refine ⟨?_, ?_⟩ <;> intro h <;> cases h

theorem chunkGo_flatten {α : Type} (S : ℕ) (hS : 1 ≤ S) :
    ∀ (fuel : ℕ) (l : List α), l.length ≤ fuel →
      (chunkGo S fuel l).flatten = l := by
  intro fuel
  induction fuel with
  | zero =>
    intro l hl
    rw [List.eq_nil_of_length_eq_zero (Nat.le_zero.mp hl)]
    rfl
  | succ fuel ih =>
    intro l hl
    cases l with
    | nil => rfl
    | cons a as =>
      rw [chunkGo, List.flatten_cons,
        ih _ (by simp only [List.length_drop, List.length_cons] at hl ⊢; omega),
        List.take_append_drop]

theorem chunkGo_length {α : Type} (S : ℕ) (hS : 1 ≤ S) :
    ∀ (fuel : ℕ) (l : List α), l.length ≤ fuel →
      (chunkGo S fuel l).length = (l.length + S - 1) / S := by
  intro fuel
  induction fuel with
  | zero =>
    intro l hl
    rw [List.eq_nil_of_length_eq_zero (Nat.le_zero.mp hl)]
    simp only [chunkGo, List.length_nil, List.length]
    rw [Nat.div_eq_of_lt (show 0 + S - 1 < S by omega)]
  | succ fuel ih =>
    intro l hl
    cases l with
    | nil =>
      simp only [chunkGo, List.length_nil, List.length]
      rw [Nat.div_eq_of_lt (show 0 + S - 1 < S by omega)]
    | cons a as =>
      rw [chunkGo, List.length_cons,
        ih _ (by simp only [List.length_drop, List.length_cons] at hl ⊢; omega),
        List.length_drop, List.length_cons]
      rcases le_or_lt (as.length + 1) S with h | h
      · have h1 : as.length + 1 - S = 0 := by omega
        rw [h1, Nat.div_eq_of_lt (by omega),
          show as.length + 1 + S - 1 = as.length + S by omega,
          Nat.add_div_right _ (by omega), Nat.div_eq_of_lt (by omega)]
      · rw [show as.length + 1 - S + S - 1 = as.length - S + S by omega,
          show as.length + 1 + S - 1 = as.length + S by omega,
          Nat.add_div_right _ (by omega), Nat.add_div_right _ (by omega)]
        conv_rhs =>
          rw [show as.length = as.length - S + S from
            (Nat.sub_add_cancel (by omega)).symm,
            Nat.add_div_right _ (by omega)]

theorem chunkGo_mem_length {α : Type} (S : ℕ) (hS : 1 ≤ S) :
    ∀ (fuel : ℕ) (l : List α), l.length ≤ fuel →
      ∀ c ∈ chunkGo S fuel l, 1 ≤ c.length ∧ c.length ≤ S := by
  intro fuel
  induction fuel with
  | zero =>
    intro l hl c hc
    rw [List.eq_nil_of_length_eq_zero (Nat.le_zero.mp hl)] at hc
    cases hc
  | succ fuel ih =>
    intro l hl c hc
    cases l with
    | nil => cases hc
    | cons a as =>
      rw [chunkGo, List.mem_cons] at hc
      rcases hc with h | h
      · subst h
        simp only [List.length_take, List.length_cons]
        omega
      · exact ih _
          (by simp only [List.length_drop, List.length_cons] at hl ⊢; omega)
          c h

/-- Chunk lengths produced by the chunking loop on a buffer of `n` frames
(mirrors `chunkGo` on lengths alone). -/
def chunkLens (S : ℕ) : ℕ → ℕ → List ℕ
  | 0, _ => []
  | _ + 1, 0 => []
  | fuel + 1, n + 1 => min S (n + 1) :: chunkLens S fuel (n + 1 - S)

theorem chunkGo_replicate {α : Type} (S : ℕ) (x : α) :
    ∀ (fuel n : ℕ),
      (chunkGo S fuel (List.replicate n x)).map List.length =
        chunkLens S fuel n := by
  intro fuel
  induction fuel with
  | zero => intro n; rfl
  | succ fuel ih =>
    intro n
    cases n with
    | zero => rfl
    | succ m =>
      rw [List.replicate_succ, chunkGo, List.map_cons, List.length_take,
        List.length_cons, List.length_replicate, ← List.replicate_succ,
        List.drop_replicate, ih, chunkLens]

theorem chunkSplit_replicate_5000_2048 :
    (chunkSplit 2048 (List.replicate 5000 (0 : ℚ))).map List.length =
      [2048, 2048, 904] := by
  rw [chunkSplit, List.length_replicate, chunkGo_replicate]
  decide

theorem chunkSplit_spec {α : Type} (S : ℕ) (hS : 1 ≤ S) (l : List α) :
    (chunkSplit S l).flatten = l ∧
    (chunkSplit S l).length = (l.length + S - 1) / S ∧
    ∀ c ∈ chunkSplit S l, 1 ≤ c.length ∧ c.length ≤ S :=
  ⟨chunkGo_flatten S hS l.length l le_rfl,
    chunkGo_length S hS l.length l le_rfl,
    chunkGo_mem_length S hS l.length l le_rfl⟩

theorem limiterGo_length (lookahead : ℕ) (ceiling release_coef : ℝ) :
    ∀ (samples buf : List ℝ) (st : ℝ × ℝ),
      (limiterGo lookahead ceiling release_coef st samples buf).2.length =
        samples.length := by
  intro samples
  induction samples with
  | nil => intro buf st; rfl
  | cons s rest ih =>
    intro buf st
    simp only [limiterGo, List.length_cons]
    rw [ih]

theorem eqProcess_length (scipy : Bool)
    (sosfilt : Option FilterSpec → List ℝ → List ℝ)
    (hs : ∀ spec l, (sosfilt spec l).length = l.length) (eq : SimpleEQ)
    (lg mg hg : ℝ) (d : List ℝ) :
    (SimpleEQ.process scipy sosfilt eq lg mg hg d).length = d.length := by
  rw [SimpleEQ.process]
  split
  · simp [hs]
  · rfl

theorem levelerProcess_length (lv : LA2ALeveler) (pr og : ℝ)
    (d : List ℝ) : ((LA2ALeveler.process lv pr og d).2).length = d.length := by
  rw [LA2ALeveler.process]
  split
  · simp
  · exact procFold_length _ _ _

theorem compressorProcess_length (c : Compressor) (t r a rl m : ℝ)
    (d : List ℝ) :
    ((Compressor.process c t r a rl m d).2).length = d.length :=
  procFold_length _ _ _

theorem limiterProcess_length (lim : Limiter) (cdb rms : ℝ)
    (d : List ℝ) :
    ((Limiter.process lim cdb rms d).2).length = d.length :=
  limiterGo_length _ _ _ _ _ _

theorem DSPChain.preGainStage_length (cfg : DSPConfig) (d : List ℝ) :
    (DSPChain.preGainStage cfg d).length = d.length := by
  rw [DSPChain.preGainStage]; split <;> simp

theorem DSPChain.eqStage_length (scipy : Bool)
    (sosfilt : Option FilterSpec → List ℝ → List ℝ)
    (hs : ∀ spec l, (sosfilt spec l).length = l.length) (cfg : DSPConfig)
    (eq : SimpleEQ) (d : List ℝ) :
    (DSPChain.eqStage scipy sosfilt cfg eq d).length = d.length := by
  rw [DSPChain.eqStage]
  split
  · exact eqProcess_length scipy sosfilt hs eq _ _ _ d
  · rfl

theorem DSPChain.levelerStage_length (cfg : DSPConfig) (lv : LA2ALeveler)
    (d : List ℝ) :
    ((DSPChain.levelerStage cfg lv d).2).length = d.length := by
  rw [DSPChain.levelerStage]
  split
  · exact levelerProcess_length _ _ _ _
  · rfl

theorem DSPChain.compressorStage_length (cfg : DSPConfig) (c : Compressor)
    (d : List ℝ) :
    ((DSPChain.compressorStage cfg c d).2).length = d.length := by
  rw [DSPChain.compressorStage]
  split
  · exact compressorProcess_length _ _ _ _ _ _ _
  · rfl

theorem DSPChain.limiterStage_length (cfg : DSPConfig) (lim : Limiter)
    (d : List ℝ) :
    ((DSPChain.limiterStage cfg lim d).2).length = d.length := by
  rw [DSPChain.limiterStage]
  split
  · exact limiterProcess_length _ _ _ _
  · rfl

theorem DSPChain.outputGainStage_length (cfg : DSPConfig) (d : List ℝ) :
    (DSPChain.outputGainStage cfg d).length = d.length := by
  rw [DSPChain.outputGainStage]; split <;> simp

/-- `DSPChain.process` preserves the frame count whenever the external
`sosfilt` does (as scipy's does). -/
theorem chainProcess_length (scipy : Bool)
    (sosfilt : Option FilterSpec → List ℝ → List ℝ)
    (hs : ∀ spec l, (sosfilt spec l).length = l.length)
    (st : DSPChain) (arr : NDArray) :
    ((DSPChain.process scipy sosfilt st arr).2).data.length =
      arr.data.length := by
  rw [DSPChain.process]
  split
  · show (DSPChain.outputGainStage _ _).length = _
    rw [DSPChain.outputGainStage_length, DSPChain.limiterStage_length,
      DSPChain.compressorStage_length, DSPChain.levelerStage_length,
      DSPChain.eqStage_length scipy sosfilt hs, DSPChain.preGainStage_length]
    split <;> rfl
  · rfl

/-- Claim C7: for a non-empty N-frame buffer and chunk size S ≥ 1 (given
that the DSP pass preserves the frame count, which `DSPChain.process`
does), `play` enqueues exactly `ceil(N/S)` chunks, in order, whose
concatenation is the processed buffer and whose lengths sum to N, each
chunk (the last in particular) of length in `[1, S]`, followed by exactly
one end-of-stream marker as the final queue item; and 5000 frames with
S = 2048 chunk as lengths `[2048, 2048, 904]`. -/
theorem c7_play_chunking (st : PlayerState)
    (chainF : NDArray → Except Unit NDArray) (samples : NDArray)
    (newId : ℕ) (hS : 1 ≤ st.buffer_size) (hN : 1 ≤ samples.data.length)
    (hlen : (playDSPBuffer st.dsp_enabled chainF samples).data.length =
      samples.data.length) :
    (∃ cs : List (List ℝ),
      (NonBlockingAudioPlayer.play st chainF samples newId).1.audio_queue =
        some (cs.map QItem.chunk ++ [QItem.endMarker]) ∧
      cs.length =
        (samples.data.length + st.buffer_size - 1) / st.buffer_size ∧
      1 ≤ cs.length ∧
      cs.flatten = (playDSPBuffer st.dsp_enabled chainF samples).data ∧
      (cs.map List.length).sum = samples.data.length ∧
      ∀ c ∈ cs, 1 ≤ c.length ∧ c.length ≤ st.buffer_size) ∧
    (chunkSplit 2048 (List.replicate 5000 (0 : ℚ))).map List.length =
      [2048, 2048, 904] := by
  constructor
  · refine ⟨chunkSplit st.buffer_size
      (playDSPBuffer st.dsp_enabled chainF samples).data, rfl, ?_, ?_, ?_, ?_, ?_⟩
    · rw [(chunkSplit_spec st.buffer_size hS _).2.1, hlen]
    · rw [(chunkSplit_spec st.buffer_size hS _).2.1, hlen]
      have : st.buffer_size ≤ samples.data.length + st.buffer_size - 1 := by
        omega
      exact Nat.one_le_div_iff (by omega) |>.mpr this
    · exact (chunkSplit_spec st.buffer_size hS _).1
    · rw [← List.length_flatten, (chunkSplit_spec st.buffer_size hS _).1, hlen]
    · exact (chunkSplit_spec st.buffer_size hS _).2.2
  · exact chunkSplit_replicate_5000_2048

/-- Witness for C7 at a concrete player (chunk size 2, DSP disabled) and
a concrete 3-frame buffer: two chunks `[0,0]` and `[0]`. -/
theorem c7_play_chunking_witness :
    1 ≤ (⟨2, false, none, none, false, none⟩ : PlayerState).buffer_size ∧
    1 ≤ (⟨DType.float32, [0, 0, 0]⟩ : NDArray).data.length ∧
    (playDSPBuffer
      (⟨2, false, none, none, false, none⟩ : PlayerState).dsp_enabled
      (fun x => Except.ok x)
      (⟨DType.float32, [0, 0, 0]⟩ : NDArray)).data.length =
      (⟨DType.float32, [0, 0, 0]⟩ : NDArray).data.length ∧
    ((∃ cs : List (List ℝ),
      (NonBlockingAudioPlayer.play ⟨2, false, none, none, false, none⟩
        (fun x => Except.ok x) ⟨DType.float32, [0, 0, 0]⟩ 7).1.audio_queue =
        some (cs.map QItem.chunk ++ [QItem.endMarker]) ∧
      cs.length = ((⟨DType.float32, [0, 0, 0]⟩ : NDArray).data.length +
        (⟨2, false, none, none, false, none⟩ : PlayerState).buffer_size - 1) /
        (⟨2, false, none, none, false, none⟩ : PlayerState).buffer_size ∧
      1 ≤ cs.length ∧
      cs.flatten = (playDSPBuffer
        (⟨2, false, none, none, false, none⟩ : PlayerState).dsp_enabled
        (fun x => Except.ok x) ⟨DType.float32, [0, 0, 0]⟩).data ∧
      (cs.map List.length).sum =
        (⟨DType.float32, [0, 0, 0]⟩ : NDArray).data.length ∧
      ∀ c ∈ cs, 1 ≤ c.length ∧ c.length ≤
        (⟨2, false, none, none, false, none⟩ : PlayerState).buffer_size) ∧
    (chunkSplit 2048 (List.replicate 5000 (0 : ℚ))).map List.length =
      [2048, 2048, 904]) :=
  ⟨Nat.one_le_iff_ne_zero.mpr (by decide), by decide, rfl,
    c7_play_chunking ⟨2, false, none, none, false, none⟩
      (fun x => Except.ok x) ⟨DType.float32, [0, 0, 0]⟩ 7
      (by decide) (by decide) rfl⟩

theorem maxAbs_nonneg (l : List ℝ) : 0 ≤ maxAbs l := by
  induction l with
  | nil => exact le_refl 0
  | cons a l ih => exact ih.trans (le_max_right _ _)

theorem le_maxAbs (l : List ℝ) (x : ℝ) (h : x ∈ l) : |x| ≤ maxAbs l := by
  induction l with
  | nil => cases h
  | cons a l ih =>
    rcases List.mem_cons.mp h with h | h
    · subst h; exact le_max_left _ _
    · exact (ih h).trans (le_max_right _ _)

theorem mem_take_of_drop_cons {L : ℕ} {buf : List ℝ} {s : ℝ}
    {rest : List ℝ} (h : buf.drop L = s :: rest) :
    s ∈ buf.take (L + 1) := by
  have h0 : buf[L]? = some s := by
    have := List.getElem?_drop buf L 0
    rw [h] at this
    simpa using this.symm
  exact List.getElem?_mem
    (by rw [List.getElem?_take_of_lt (Nat.lt_succ_self L)]; exact h0)

/-- Safety invariant of the limiter loop: starting from any state in which
the applied gain equals the target gain and is positive (as after
construction, and as preserved by every earlier call), every output sample
satisfies `|s * gain| ≤ ceiling`, and the state invariant is preserved.
The `buf.drop L = samples` hypothesis records that the lookahead window at
the current index always contains the current sample. -/
theorem limiterGo_safe (L : ℕ) (ceiling rc : ℝ) (hc : 0 < ceiling) :
    ∀ (samples buf : List ℝ) (g t : ℝ), g = t → 0 < g →
      buf.drop L = samples →
      ((limiterGo L ceiling rc (g, t) samples buf).1.1 =
          (limiterGo L ceiling rc (g, t) samples buf).1.2 ∧
        0 < (limiterGo L ceiling rc (g, t) samples buf).1.1) ∧
      ∀ y ∈ (limiterGo L ceiling rc (g, t) samples buf).2,
        |y| ≤ ceiling := by
  intro samples
  induction samples with
  | nil =>
    intro buf g t h1 h2 _
    exact ⟨⟨h1, h2⟩, fun y hy => absurd hy (List.not_mem_nil y)⟩
  | cons s rest ih =>
    intro buf g t h1 h2 hdrop
    subst h1
    have hsle : |s| ≤ maxAbs (buf.take (L + 1)) :=
      le_maxAbs _ s (mem_take_of_drop_cons hdrop)
    have hdrop' : (buf.drop 1).drop L = rest := by
      rw [List.drop_drop, Nat.add_comm, ← List.drop_drop, hdrop,
        List.drop_one, List.tail_cons]
    simp only [limiterGo]
    by_cases hlt : ceiling < maxAbs (buf.take (L + 1)) * g
    · have hpk : 0 < maxAbs (buf.take (L + 1)) := by
        by_contra hle
        push_neg at hle
        have : maxAbs (buf.take (L + 1)) * g ≤ 0 :=
          mul_nonpos_of_nonpos_of_nonneg hle h2.le
        linarith
      have htgt : ceiling / maxAbs (buf.take (L + 1)) < g := by
        rw [div_lt_iff hpk]
        calc ceiling < maxAbs (buf.take (L + 1)) * g := hlt
          _ = g * maxAbs (buf.take (L + 1)) := mul_comm _ _
      have hg' : 0 < ceiling / maxAbs (buf.take (L + 1)) := div_pos hc hpk
      simp only [if_pos hlt, if_pos htgt]
      obtain ⟨hinv, hout⟩ := ih (buf.drop 1) _ _ rfl hg' hdrop'
      refine ⟨hinv, ?_⟩
      intro y hy
      rcases List.mem_cons.mp hy with hy | hy
      · subst hy
        rw [abs_mul, abs_of_pos hg']
        calc |s| * (ceiling / maxAbs (buf.take (L + 1)))
            ≤ maxAbs (buf.take (L + 1)) *
              (ceiling / maxAbs (buf.take (L + 1))) :=
              mul_le_mul_of_nonneg_right hsle hg'.le
          _ = ceiling := by field_simp
      · exact hout y hy
    · push_neg at hlt
      simp only [if_neg (not_lt.mpr hlt), lt_irrefl, if_neg (lt_irrefl g),
        if_false, sub_self, mul_zero, add_zero]
      obtain ⟨hinv, hout⟩ := ih (buf.drop 1) g g rfl h2 hdrop'
      refine ⟨hinv, ?_⟩
      intro y hy
      rcases List.mem_cons.mp hy with hy | hy
      · subst hy
        rw [abs_mul, abs_of_pos h2]
        calc |s| * g ≤ maxAbs (buf.take (L + 1)) * g :=
              mul_le_mul_of_nonneg_right hsle h2.le
          _ ≤ ceiling := hlt
      · exact hout y hy

/-- Claim C1: for every input buffer and every ceiling `C` dB (with the
limiter enabled and any release time), every sample output by
`Limiter.process` satisfies `|output| ≤ 10^(C/20)`: from any reachable
limiter state (applied gain equal to the target gain and positive, as at
construction), the product of each sample with the gain applied after the
gain update at its index never exceeds the linear ceiling — including
while earlier loud samples leave the lookahead window. -/
theorem c1_limiter_never_exceeds_ceiling (lim : Limiter)
    (ceiling_db release_ms : ℝ) (samples : List ℝ)
    (h1 : lim.gain = lim.gain_target) (h2 : 0 < lim.gain) :
    ∀ y ∈ (Limiter.process lim ceiling_db release_ms samples).2,
      |y| ≤ db_to_linear ceiling_db := by
  have hdrop :
      (List.replicate lim.lookahead_samples (0 : ℝ) ++ samples).drop
        lim.lookahead_samples = samples := by
    have h := List.drop_left (List.replicate lim.lookahead_samples (0 : ℝ))
      samples
    rwa [List.length_replicate] at h
  exact (limiterGo_safe lim.lookahead_samples (db_to_linear ceiling_db)
    (Real.exp (-1 / (release_ms / 1000 * lim.sample_rate)))
    (db_to_linear_pos ceiling_db) samples
    (List.replicate lim.lookahead_samples (0 : ℝ) ++ samples)
    lim.gain lim.gain_target h1 h2 hdrop).2

/-- Witness for C1 at a freshly constructed limiter (24 kHz), ceiling
0 dB, release 50 ms, on a buffer whose first sample (2.0) exceeds the
ceiling. -/
theorem c1_limiter_never_exceeds_ceiling_witness :
    (Limiter.init 24000).gain = (Limiter.init 24000).gain_target ∧
    0 < (Limiter.init 24000).gain ∧
    ∀ y ∈ (Limiter.process (Limiter.init 24000) 0 50 [2, 0]).2,
      |y| ≤ db_to_linear 0 :=
  ⟨rfl, one_pos, fun y hy =>
    c1_limiter_never_exceeds_ceiling (Limiter.init 24000) 0 50 [2, 0]
      rfl one_pos y hy⟩

theorem db_to_linear_div (a b : ℝ) :
    db_to_linear a / db_to_linear b = db_to_linear (a - b) := by
  rw [db_to_linear, db_to_linear, db_to_linear, ← Real.rpow_sub (by norm_num),
    sub_div]

theorem db_to_linear_lt_db_to_linear {a b : ℝ} (h : a < b) :
    db_to_linear a < db_to_linear b := by
  rw [db_to_linear, db_to_linear]
  exact (Real.rpow_lt_rpow_left_iff (by norm_num)).mpr (by linarith)

/-- Claim C8: in the `Compressor.process` gain rule, whenever the updated
envelope exceeds the linear threshold the applied gain reduction in dB is
`(envelope dB over threshold) * (1 - 1/ratio)`, and at or below threshold
it is unity; consequently, on a constant input at -6 dBFS with threshold
-18 dB and ratio 4, once the envelope has settled (at the input level) it
stays settled and the gain reduction is exactly 9 dB. -/
theorem c8_compressor_gain_reduction_law :
    (∀ threshold ratio env : ℝ, threshold < env →
      linear_to_db (compGain threshold ratio env) =
        -(linear_to_db (env / threshold) * (1 - 1 / ratio))) ∧
    (∀ threshold ratio env : ℝ, env ≤ threshold →
      compGain threshold ratio env = 1) ∧
    (∀ c : Compressor, c.envelope = db_to_linear (-6) →
      (Compressor.process c (-18) 4 10 100 0
          [db_to_linear (-6)]).1.envelope = db_to_linear (-6) ∧
      -(linear_to_db
          (Compressor.process c (-18) 4 10 100 0
            [db_to_linear (-6)]).1.gain_reduction) = 9) := by
  refine ⟨?_, ?_, ?_⟩
  · intro threshold ratio env h
    rw [compGain, if_pos h, linear_to_db_db_to_linear]
  · intro threshold ratio env h
    rw [compGain, if_neg (not_lt.mpr h)]
  · intro c hc
    have habs : |db_to_linear (-6)| = db_to_linear (-6) :=
      abs_of_pos (db_to_linear_pos _)
    have hlt : db_to_linear (-18) < db_to_linear (-6) :=
      db_to_linear_lt_db_to_linear (by norm_num)
    have hdiv : db_to_linear (-6) / db_to_linear (-18) = db_to_linear 12 := by
      rw [db_to_linear_div]; norm_num
    constructor
    · simp only [Compressor.process, procFold, compStep, habs, hc,
        lt_self_iff_false, if_false, sub_self, mul_zero, add_zero]
    · simp only [Compressor.process, procFold, compStep, habs, hc,
        lt_self_iff_false, if_false, sub_self, mul_zero, add_zero,
        compGain, hlt, if_true, hdiv, linear_to_db_db_to_linear]
      norm_num

/-- Witness for C8 at concrete over-threshold (`threshold 1 < envelope 2`,
ratio 4), at-threshold (`envelope = threshold = 1`) and settled-scenario
(`envelope = db_to_linear (-6)`) inputs. -/
theorem c8_compressor_gain_reduction_law_witness :
    (1 : ℝ) < 2 ∧
    linear_to_db (compGain 1 4 2) =
      -(linear_to_db ((2 : ℝ) / 1) * (1 - 1 / 4)) ∧
    (1 : ℝ) ≤ 1 ∧
    compGain 1 4 1 = 1 ∧
    (⟨24000, db_to_linear (-6), 1⟩ : Compressor).envelope =
      db_to_linear (-6) ∧
    (Compressor.process ⟨24000, db_to_linear (-6), 1⟩ (-18) 4 10 100 0
        [db_to_linear (-6)]).1.envelope = db_to_linear (-6) ∧
    -(linear_to_db
        (Compressor.process ⟨24000, db_to_linear (-6), 1⟩ (-18) 4 10 100 0
          [db_to_linear (-6)]).1.gain_reduction) = 9 :=
  ⟨one_lt_two,
    c8_compressor_gain_reduction_law.1 1 4 2 one_lt_two,
    le_refl 1,
    c8_compressor_gain_reduction_law.2.1 1 4 1 (le_refl 1),
    rfl,
    (c8_compressor_gain_reduction_law.2.2 ⟨24000, db_to_linear (-6), 1⟩
      rfl).1,
    (c8_compressor_gain_reduction_law.2.2 ⟨24000, db_to_linear (-6), 1⟩
      rfl).2⟩

/-- Counterexample to claim C5 as stated: updating the default-config
chain with a config that changes only `eq_low_freq` (200 Hz → 300 Hz,
sample rate unchanged) leaves the EQ's stored low-band coefficients at the
old crossover — they are not recomputed from the new value, and they
differ from what a rebuild against the new config would produce. -/
theorem c5_counterexample_freq_change_keeps_stale_coefficients :
    ({ DSPConfig.default with eq_low_freq := 300 } : DSPConfig).sample_rate =
      DSPConfig.default.sample_rate ∧
    ({ DSPConfig.default with eq_low_freq := 300 } : DSPConfig).eq_low_freq ≠
      DSPConfig.default.eq_low_freq ∧
    (DSPChain.update_config true (DSPChain.init true DSPConfig.default)
        { DSPConfig.default with eq_low_freq := 300 }).eq.sos_low ≠
      (SimpleEQ.init true
        ({ DSPConfig.default with eq_low_freq := 300 } : DSPConfig).sample_rate
        ({ DSPConfig.default with eq_low_freq := 300 } : DSPConfig).eq_low_freq
        ({ DSPConfig.default with eq_low_freq := 300 } : DSPConfig).eq_high_freq).sos_low := by
  refine ⟨rfl, ?_, ?_⟩
  · simp only [DSPConfig.default]
    norm_num
  · rw [DSPChain.update_config,
      if_neg (by simp [DSPChain.init, DSPConfig.default])]
    simp only [DSPChain.init, SimpleEQ.init, DSPConfig.default, if_true,
      Ne, Option.some.injEq, FilterSpec.mk.injEq]
    intro h
    have := h.2.1
    norm_num at this

/-- Claim C5, amended: after `DSPChain.update_config`, all stages
(including the EQ and its filter coefficients) are rebuilt from the new
config exactly when the sample rate differs; when the sample rate is
unchanged — even if either crossover frequency changed — only the stored
config is replaced and the EQ (its stored frequencies and coefficients)
is left as it was. -/
theorem c5_update_config_rebuilds_only_on_sample_rate_change
    (scipy : Bool) (st : DSPChain) (c : DSPConfig) :
    (c.sample_rate ≠ st.config.sample_rate →
      DSPChain.update_config scipy st c = DSPChain.init scipy c ∧
      (DSPChain.update_config scipy st c).eq =
        SimpleEQ.init scipy c.sample_rate c.eq_low_freq c.eq_high_freq) ∧
    (c.sample_rate = st.config.sample_rate →
      DSPChain.update_config scipy st c = { st with config := c } ∧
      (DSPChain.update_config scipy st c).eq = st.eq) := by
  constructor
  · intro h
    rw [DSPChain.update_config, if_pos h]
    exact ⟨rfl, rfl⟩
  · intro h
    rw [DSPChain.update_config, if_neg (by simp [h])]
    exact ⟨rfl, rfl⟩

/-- Witness for C5 (amended) at concrete configs: one update changing the
sample rate (24000 → 48000), one keeping it. -/
theorem c5_update_config_witness :
    ({ DSPConfig.default with sample_rate := 48000 } : DSPConfig).sample_rate ≠
      (DSPChain.init true DSPConfig.default).config.sample_rate ∧
    (DSPChain.update_config true (DSPChain.init true DSPConfig.default)
        { DSPConfig.default with sample_rate := 48000 }).eq =
      SimpleEQ.init true 48000 DSPConfig.default.eq_low_freq
        DSPConfig.default.eq_high_freq ∧
    ({ DSPConfig.default with eq_low_freq := 300 } : DSPConfig).sample_rate =
      (DSPChain.init true DSPConfig.default).config.sample_rate ∧
    (DSPChain.update_config true (DSPChain.init true DSPConfig.default)
        { DSPConfig.default with eq_low_freq := 300 }).eq =
      (DSPChain.init true DSPConfig.default).eq :=
  ⟨by decide,
    ((c5_update_config_rebuilds_only_on_sample_rate_change true
      (DSPChain.init true DSPConfig.default)
      { DSPConfig.default with sample_rate := 48000 }).1 (by decide)).2,
    rfl,
    ((c5_update_config_rebuilds_only_on_sample_rate_change true
      (DSPChain.init true DSPConfig.default)
      { DSPConfig.default with eq_low_freq := 300 }).2 rfl).2⟩

/-- Claim C9: there is no separate EQ enable flag — when all three EQ
gains are exactly 0 dB the EQ stage of `DSPChain.process` is skipped
entirely: the buffer passes to the next stage bit-identical, and the
chain's result does not depend on the band filters (`sosfilt`) at all. -/
theorem c9_zero_eq_gains_skip_eq_stage (scipy : Bool)
    (sosfilt sosfilt' : Option FilterSpec → List ℝ → List ℝ)
    (st : DSPChain) (arr : NDArray) (d : List ℝ)
    (hl : st.config.eq_low_gain_db = 0) (hm : st.config.eq_mid_gain_db = 0)
    (hh : st.config.eq_high_gain_db = 0) :
    DSPChain.eqStage scipy sosfilt st.config st.eq d = d ∧
    DSPChain.process scipy sosfilt st arr =
      DSPChain.process scipy sosfilt' st arr := by
  have hskip : ∀ (f : Option FilterSpec → List ℝ → List ℝ) (d' : List ℝ),
      DSPChain.eqStage scipy f st.config st.eq d' = d' := by
    intro f d'
    rw [DSPChain.eqStage, if_neg]
    simp [hl, hm, hh]
  refine ⟨hskip sosfilt d, ?_⟩
  rw [DSPChain.process, DSPChain.process]
  split
  · simp only [hskip]
  · rfl

/-- Witness for C9 at the default config (whose three EQ gains are 0) and
two band-filter functions that disagree. -/
theorem c9_zero_eq_gains_skip_eq_stage_witness :
    (DSPChain.init true DSPConfig.default).config.eq_low_gain_db = 0 ∧
    (DSPChain.init true DSPConfig.default).config.eq_mid_gain_db = 0 ∧
    (DSPChain.init true DSPConfig.default).config.eq_high_gain_db = 0 ∧
    DSPChain.eqStage true (fun _ l => l)
      (DSPChain.init true DSPConfig.default).config
      (DSPChain.init true DSPConfig.default).eq [1, 2] = [1, 2] ∧
    DSPChain.process true (fun _ l => l)
      (DSPChain.init true DSPConfig.default) ⟨DType.float32, [1, 2]⟩ =
    DSPChain.process true (fun _ _ => [])
      (DSPChain.init true DSPConfig.default) ⟨DType.float32, [1, 2]⟩ :=
  ⟨rfl, rfl, rfl,
    (c9_zero_eq_gains_skip_eq_stage true (fun _ l => l) (fun _ _ => [])
      (DSPChain.init true DSPConfig.default) ⟨DType.float32, [1, 2]⟩
      [1, 2] rfl rfl rfl).1,
    (c9_zero_eq_gains_skip_eq_stage true (fun _ l => l) (fun _ _ => [])
      (DSPChain.init true DSPConfig.default) ⟨DType.float32, [1, 2]⟩
      [1, 2] rfl rfl rfl).2⟩

/-- Counterexample to claim C4 as stated: `DSPChain.process` contains no
exception handler — with the default (enabled) config, a leveler stage
that raises makes the whole chain call raise (`Except.error`) instead of
returning any buffer; the chain itself does not catch, log and continue. -/
theorem c4_counterexample_chain_propagates_stage_failure :
    DSPChain.processE true
      { eqF := fun _ _ _ _ d => Except.ok d
        levF := fun _ _ _ _ => Except.error ()
        compF := fun c _ _ _ _ _ d => Except.ok (c, d)
        limF := fun lim _ _ d => Except.ok (lim, d) }
      (DSPChain.init true DSPConfig.default) ⟨DType.float32, [0]⟩ =
      Except.error () := by
  rw [DSPChain.processE]
  simp [DSPChain.init, DSPConfig.default]
  rfl

/-- Claim C4, amended: a stage failure during DSP processing propagates
out of `DSPChain.process` (see the counterexample), and it is
`NonBlockingAudioPlayer.play` that catches it: whenever the chain call
raises, `play`'s DSP block logs and falls back to the unprocessed
(float32-cast) buffer, so a failed DSP pass never prevents audio output;
when no stage raises, the exception-flow model agrees with
`DSPChain.process`. -/
theorem c4_play_falls_back_to_raw_audio_on_dsp_failure :
    (∀ (chainF : NDArray → Except Unit NDArray) (samples : NDArray),
      chainF (astype32 samples) = Except.error () →
      playDSPBuffer true chainF samples = astype32 samples) ∧
    (∀ (scipy : Bool) (sosfilt : Option FilterSpec → List ℝ → List ℝ)
      (st : DSPChain) (arr : NDArray),
      DSPChain.processE scipy (okStageFns scipy sosfilt) st arr =
        Except.ok (DSPChain.process scipy sosfilt st arr)) := by
  constructor
  · intro chainF samples h
    rw [playDSPBuffer]
    simp only [if_true]
    rw [h]
  · intro scipy sosfilt st arr
    rw [DSPChain.processE, DSPChain.process]
    split
    · simp only [okStageFns, DSPChain.eqStage, DSPChain.levelerStage,
        DSPChain.compressorStage, DSPChain.limiterStage]
      by_cases h0 : scipy = true ∧ (st.config.eq_low_gain_db ≠ 0 ∨
          st.config.eq_mid_gain_db ≠ 0 ∨ st.config.eq_high_gain_db ≠ 0) <;>
        by_cases h1 : st.config.leveler_enabled = true <;>
        by_cases h2 : st.config.compressor_enabled = true <;>
        by_cases h3 : st.config.limiter_enabled = true <;>
        simp only [h0, h1, h2, h3, if_true, if_false, ite_true, ite_false,
          if_neg, not_false_eq_true, Except.bind] <;>
        rfl
    · rfl

/-- Witness for C4 (amended) at a concrete always-raising chain behaviour
and a concrete buffer. -/
theorem c4_play_falls_back_witness :
    (fun _ : NDArray => (Except.error () : Except Unit NDArray))
      (astype32 ⟨DType.float32, [5]⟩) = Except.error () ∧
    playDSPBuffer true (fun _ => Except.error ()) ⟨DType.float32, [5]⟩ =
      astype32 ⟨DType.float32, [5]⟩ ∧
    DSPChain.processE true (okStageFns true (fun _ l => l))
      (DSPChain.init true DSPConfig.default) ⟨DType.float32, [5]⟩ =
      Except.ok (DSPChain.process true (fun _ l => l)
        (DSPChain.init true DSPConfig.default) ⟨DType.float32, [5]⟩) :=
  ⟨rfl,
    c4_play_falls_back_to_raw_audio_on_dsp_failure.1
      (fun _ => Except.error ()) ⟨DType.float32, [5]⟩ rfl,
    c4_play_falls_back_to_raw_audio_on_dsp_failure.2 true (fun _ l => l)
      (DSPChain.init true DSPConfig.default) ⟨DType.float32, [5]⟩⟩
